import Mathlib

/-!
Shallow embedding of `generate_report.py`, the single source file of the
repository (a one-shot fpdf2 script that lays out a fixed statistical report
and writes two PDF files).

Modelling conventions:
* Lengths in mm are rationals (`ℚ`); Python float literals such as `0.6` and
  `5.5` are read as exact rationals.
* The fpdf2 library's internal text measurement (how many wrapped lines a
  `multi_cell` produces, how tall a placed image is, and the automatic page
  breaks these can trigger) is abstracted into a `Metrics` oracle; everything
  the script itself computes (cursor moves, colors, fonts, the explicit
  overflow check in `add_figure`, the output/copy sequence) is modelled
  exactly.  All theorems quantify over the oracle.
* The rendered document is the list of drawing events in reverse emission
  order, each text event carrying the font and text color in force when it
  was emitted.  `header`/`footer` are fpdf callbacks; they are modelled as
  the state transformers the class defines (they are not interleaved into
  the builder trace, whose page count is oracle-dependent).
* Files are a partial map from path to `FileData`; a PDF output file is the
  finalized document value (content plus the creation timestamp fpdf embeds),
  so byte identity of outputs is equality of `FileData`.
-/

/-- RGB color as set by `set_text_color` / `set_draw_color`. -/
structure Color where
  r : Nat
  g : Nat
  b : Nat
deriving DecidableEq

/-- A font selection: family, style string ("", "B", "I"), size in points. -/
structure Font where
  family : String
  style : String
  size : Nat
deriving DecidableEq

/-- One drawing event of the in-memory document, in reverse emission order.
`text` is a `cell`, `wrapText` a `multi_cell`; both record the font and text
color in force when emitted.  `rule` is a `line` call recording the draw
color and endpoints; `image` records the loaded bytes, the x position and
the requested width; `pageBreak` is an `add_page`. -/
inductive Ev
  | text (f : Font) (c : Color) (w h : ℚ) (s : String) (align : String)
  | wrapText (f : Font) (c : Color) (w h : ℚ) (s : String) (align : String)
  | rule (c : Color) (x1 y1 x2 y2 : ℚ)
  | image (path : String) (data : List Nat) (x w : ℚ)
  | pageBreak
deriving DecidableEq

/-- Abstract fpdf2 text/image metrics: given the cursor (y, page) and the
content, where does the cursor land after a `multi_cell` (`mcAfter`:
y, page, cell width, line height, text) or an `image` (`imgAfter`: y, page,
image bytes, requested width)?  This hides the library's font metrics and
the automatic page breaks they can trigger, relative to the report's fixed
A4 geometry. -/
structure Metrics where
  mcAfter : ℚ → Nat → ℚ → ℚ → String → ℚ × Nat
  imgAfter : ℚ → Nat → List Nat → ℚ → ℚ × Nat

/-- The mutable fpdf document state the script manipulates. -/
structure PdfState where
  pageW : ℚ
  pageH : ℚ
  lMargin : ℚ
  tMargin : ℚ
  rMargin : ℚ
  autoBreak : Bool
  breakMargin : ℚ
  aliasNb : Bool
  pageNo : Nat
  y : ℚ
  curFont : Font
  curTextColor : Color
  curDrawColor : Color
  events : List Ev

/-- Fresh `FPDF()` state: A4 portrait (210 x 297 mm), fpdf2 default margins
(1 cm) and auto page break, no page yet.  The initial font is a dummy; fpdf
raises if text is emitted before `set_font`, and the script never does. -/
def initState : PdfState :=
  { pageW := 210, pageH := 297, lMargin := 10, tMargin := 10, rMargin := 10
    autoBreak := true, breakMargin := 20, aliasNb := false
    pageNo := 0, y := 10
    curFont := ⟨"", "", 0⟩
    curTextColor := ⟨0, 0, 0⟩, curDrawColor := ⟨0, 0, 0⟩
    events := [] }

namespace PdfState

/-- Model of `FPDF.set_font`. -/
def set_font (s : PdfState) (f : Font) : PdfState :=
  { s with curFont := f }

/-- Model of `FPDF.set_text_color`. -/
def set_text_color (s : PdfState) (c : Color) : PdfState :=
  { s with curTextColor := c }

/-- Model of `FPDF.set_draw_color`. -/
def set_draw_color (s : PdfState) (c : Color) : PdfState :=
  { s with curDrawColor := c }

/-- Model of `FPDF.set_y`: a negative argument positions from the bottom. -/
def set_y (s : PdfState) (v : ℚ) : PdfState :=
  { s with y := if v < 0 then s.pageH + v else v }

/-- Model of `FPDF.ln` with an explicit height (the script always passes
one). -/
def ln (s : PdfState) (h : ℚ) : PdfState :=
  { s with y := s.y + h }

/-- Model of `FPDF.cell`: emits one line of text; `nextLine` is true when
the call passes `new_y="NEXT"` (cursor moves below the cell), false for the
default `YPos.TOP`. -/
def cell (s : PdfState) (w h : ℚ) (txt : String) (align : String)
    (nextLine : Bool) : PdfState :=
  { s with events := Ev.text s.curFont s.curTextColor w h txt align :: s.events
           y := if nextLine then s.y + h else s.y }

/-- Model of `FPDF.multi_cell`: emits wrapped text; the cursor lands where
the metrics oracle says. -/
def multi_cell (s : PdfState) (m : Metrics) (w h : ℚ) (txt : String)
    (align : String) : PdfState :=
  { s with events := Ev.wrapText s.curFont s.curTextColor w h txt align :: s.events
           y := (m.mcAfter s.y s.pageNo w h txt).1
           pageNo := (m.mcAfter s.y s.pageNo w h txt).2 }

/-- Model of `FPDF.line`. -/
def line (s : PdfState) (x1 y1 x2 y2 : ℚ) : PdfState :=
  { s with events := Ev.rule s.curDrawColor x1 y1 x2 y2 :: s.events }

/-- Model of `FPDF.image` with `x=` and `w=` keywords (as the script calls
it); `data` are the bytes loaded from the file. -/
def image (s : PdfState) (m : Metrics) (path : String) (data : List Nat)
    (x w : ℚ) : PdfState :=
  { s with events := Ev.image path data x w :: s.events
           y := (m.imgAfter s.y s.pageNo data w).1
           pageNo := (m.imgAfter s.y s.pageNo data w).2 }

/-- Model of `FPDF.add_page`: next page, cursor to the top margin.  (fpdf
also invokes the `footer`/`header` callbacks here; those are modelled as the
standalone transformers below.) -/
def add_page (s : PdfState) : PdfState :=
  { s with pageNo := s.pageNo + 1, y := s.tMargin
           events := Ev.pageBreak :: s.events }

/-- Model of `FPDF.set_margins`. -/
def set_margins (s : PdfState) (l t r : ℚ) : PdfState :=
  { s with lMargin := l, tMargin := t, rMargin := r }

/-- Model of `FPDF.set_auto_page_break`. -/
def set_auto_page_break (s : PdfState) (b : Bool) (margin : ℚ) : PdfState :=
  { s with autoBreak := b, breakMargin := margin }

/-- Model of `FPDF.alias_nb_pages`: declare the deferred total-page-count
placeholder, substituted at output time. -/
def alias_nb_pages (s : PdfState) : PdfState :=
  { s with aliasNb := true }

end PdfState

/-! Constants of `generate_report.py` (lines 17-40). -/

def PROJECT_DIR : String := "."
def FIGURES_DIR : String := PROJECT_DIR ++ ("/figures")
def OUTPUT_PRIMARY : String := PROJECT_DIR ++ ("/module_summary.pdf")
def OUTPUT_COPY : String := PROJECT_DIR ++ ("/Statistical_Analysis_Report.pdf")

def TITLE : String :=
  "Statistical Analysis of Animal Longevity Across Vertebrate Classes"
def AUTHOR : String := "Tim Wilcoxson"
def DATE : String := "February 2026"
def COURSE : String := "Project 2 -- Data and Statistical Reasoning"
def DATASET : String := "AnAge -- The Animal Ageing and Longevity Database"
def SOURCE_URL : String := "https://genomics.senescence.info/species/"

def PAGE_W : ℚ := 210
def MARGIN : ℚ := 20
def CONTENT_W : ℚ := PAGE_W - 2 * MARGIN

def FONT_BODY : Font := ⟨"Helvetica", "", 11⟩
def FONT_BOLD : Font := ⟨"Helvetica", "B", 11⟩
def FONT_H2 : Font := ⟨"Helvetica", "B", 14⟩
def FONT_H3 : Font := ⟨"Helvetica", "B", 12⟩
def FONT_SMALL : Font := ⟨"Helvetica", "", 9⟩
def FONT_ITALIC : Font := ⟨"Helvetica", "I", 10⟩

/-! Decimal rendering of a natural number (Python `str(n)` for `n ≥ 0`),
defined structurally over a fuel bound so the kernel can evaluate it. -/

/-- The character of a decimal digit `d < 10`. -/
def digitChar (d : Nat) : Char := Char.ofNat (48 + d)

/-- Decimal digit characters of `n`, most significant first; `fuel` bounds
the recursion depth (any `fuel > n` is enough). -/
def natCharsAux : Nat → Nat → List Char
  | 0, _ => []
  | fuel + 1, n =>
    if n < 10 then [digitChar n]
    else natCharsAux fuel (n / 10) ++ [digitChar (n % 10)]

/-- Decimal digit characters of `n`. -/
def natChars (n : Nat) : List Char := natCharsAux (n + 1) n

/-- Decimal string of `n` (Python `str(n)`). -/
def natStr (n : Nat) : String := ⟨natChars n⟩

/-- The footer text with the deferred total-page placeholder: the Python
f-string `f"Page {n}/{{nb}}"`. -/
def pageLabel (n : Nat) : String := ("Page ") ++ natStr n ++ ("/{nb}")

namespace ReportPDF

/-- `ReportPDF.header` (lines 47-56): skipped on page 1, otherwise the title
in small gray text over a light-gray separator line. -/
def header (s : PdfState) : PdfState :=
  if s.pageNo = 1 then s
  else
    let t := (s.set_font FONT_SMALL).set_text_color ⟨100, 100, 100⟩
    let t := (t.cell 0 8 TITLE ("L") false).ln 4
    let t := t.set_draw_color ⟨180, 180, 180⟩
    (t.line MARGIN t.y (PAGE_W - MARGIN) t.y).ln 6

/-- `ReportPDF.footer` (lines 58-62): 15 mm from the bottom, centered
`Page N/{nb}` in small gray text. -/
def footer (s : PdfState) : PdfState :=
  let t := ((s.set_y (-15)).set_font FONT_SMALL).set_text_color ⟨140, 140, 140⟩
  t.cell 0 10 (pageLabel t.pageNo) ("C") false

/-- `ReportPDF.section_heading` (lines 66-74). -/
def section_heading (s : PdfState) (number : Nat) (title : String) : PdfState :=
  let t := ((s.ln 4).set_font FONT_H2).set_text_color ⟨30, 60, 120⟩
  let t := t.cell 0 10 (natStr number ++ (". ") ++ title) ("") true
  let t := t.set_draw_color ⟨30, 60, 120⟩
  let t := t.line MARGIN t.y (MARGIN + CONTENT_W) t.y
  (t.ln 3).set_text_color ⟨0, 0, 0⟩

/-- `ReportPDF.subsection` (lines 76-82). -/
def subsection (s : PdfState) (title : String) : PdfState :=
  let t := ((s.ln 2).set_font FONT_H3).set_text_color ⟨50, 80, 140⟩
  ((t.cell 0 8 title ("") true).ln 1).set_text_color ⟨0, 0, 0⟩

/-- `ReportPDF.body_text` (lines 84-87). -/
def body_text (s : PdfState) (m : Metrics) (txt : String) : PdfState :=
  ((s.set_font FONT_BODY).multi_cell m CONTENT_W 6 txt ("J")).ln 2

/-- `ReportPDF.bold_text` (lines 89-92). -/
def bold_text (s : PdfState) (m : Metrics) (txt : String) : PdfState :=
  ((s.set_font FONT_BOLD).multi_cell m CONTENT_W 6 txt ("J")).ln 1

/-- `ReportPDF.italic_text` (lines 94-97); defined by the class but never
called by the builder. -/
def italic_text (s : PdfState) (m : Metrics) (txt : String) : PdfState :=
  ((s.set_font FONT_ITALIC).multi_cell m CONTENT_W 5 txt ("J")).ln 1

/-- `ReportPDF.bullet` (lines 112-116). -/
def bullet (s : PdfState) (m : Metrics) (txt : String) : PdfState :=
  (((s.set_font FONT_BODY).cell 6 6 ("-") ("") false).multi_cell m
    (CONTENT_W - 6) 6 txt ("J")).ln 1

/-- The state produced by a successful `ReportPDF.add_figure` (lines 99-110)
once the image bytes `data` have been loaded: heuristic height estimate,
explicit page-break check against 270, horizontally centered image, italic
centered gray caption, text color restored to black. -/
def afState (m : Metrics) (s : PdfState) (path : String) (data : List Nat)
    (caption : String) (width : ℚ) : PdfState :=
  let est_h := width * (0.6 : ℚ) + 15
  let t := if s.y + est_h > 270 then s.add_page else s
  let x := (PAGE_W - width) / 2
  let t := (t.image m path data x width).ln 2
  let t := (t.set_font FONT_ITALIC).set_text_color ⟨80, 80, 80⟩
  let t := t.multi_cell m CONTENT_W 5 caption ("C")
  (t.set_text_color ⟨0, 0, 0⟩).ln 4

end ReportPDF

/-! The `{nb}` total-page-count substitution that fpdf performs at output
time when `alias_nb_pages()` was declared: every occurrence of the literal
alias `{nb}` in a rendered text is replaced by the decimal page total. -/

/-- Replace every (leftmost, non-overlapping) occurrence of the four-char
alias `{nb}` by `rep`. -/
def resolveNb (rep : List Char) : List Char → List Char
  | '{' :: 'n' :: 'b' :: '}' :: rest => rep ++ resolveNb rep rest
  | c :: rest => c :: resolveNb rep rest
  | [] => []

/-- String-level alias substitution with the page total `total`. -/
def resolveStr (total : Nat) (s : String) : String :=
  ⟨resolveNb (natChars total) s.data⟩

/-- Apply the alias substitution to the text carried by an event. -/
def resolveEv (total : Nat) : Ev → Ev
  | .text f c w h s a => .text f c w h (resolveStr total s) a
  | .wrapText f c w h s a => .wrapText f c w h (resolveStr total s) a
  | e => e

/-- A finalized PDF document: the drawing events (with the alias resolved),
the total page count, and the creation timestamp fpdf embeds at output
time. -/
structure PdfDoc where
  events : List Ev
  nbTotal : Nat
  timestamp : Nat
deriving DecidableEq

/-- `FPDF.output`: resolve the `{nb}` alias (iff it was declared) against
the final page count and stamp the creation time. -/
def finalize (s : PdfState) (now : Nat) : PdfDoc :=
  { events := if s.aliasNb then s.events.map (resolveEv s.pageNo) else s.events
    nbTotal := s.pageNo
    timestamp := now }

/-! Filesystem model. -/

/-- Contents of a file: raw bytes (the figure inputs) or a finalized PDF
document (the outputs).  Byte identity of two files is equality of their
`FileData`. -/
inductive FileData
  | bytes (bs : List Nat)
  | pdf (d : PdfDoc)
deriving DecidableEq

/-- A filesystem: path to file contents, if the file exists. -/
def FS : Type := String → Option FileData

/-- Reading a path as an image (`FPDF.image` loading the file): yields the
bytes, or `none` when the file is missing or is not readable image data. -/
def readImg (fs : FS) (path : String) : Option (List Nat) :=
  match fs path with
  | some (.bytes bs) => some bs
  | _ => none

/-- Writing (creating or overwriting) one file. -/
def fsSet (fs : FS) (path : String) (d : FileData) : FS :=
  fun q => if q = path then some d else fs q

/-- Failure modes of a run: a figure that cannot be loaded (fatal inside
`add_figure`), an unwritable output location at `pdf.output`, or a failed
`shutil.copy2`. -/
inductive Err
  | missingFigure (path : String)
  | outputNotWritable
  | copyFailed
deriving DecidableEq

/-- `shutil.copy2 src dst`: read the source file and write its exact
contents to the destination.  `ok` injects an environment failure (e.g. an
unwritable destination), in which case nothing is written. -/
def copy2 (fs : FS) (src dst : String) (ok : Bool) : Except Err FS :=
  if ok then
    match fs src with
    | some d => .ok (fsSet fs dst d)
    | none => .error .copyFailed
  else .error .copyFailed

/-- `ReportPDF.add_figure` (lines 99-110): loading the referenced image file
is the only fallible step; on success the layout is `ReportPDF.afState`. -/
def ReportPDF.add_figure (m : Metrics) (fs : FS) (s : PdfState) (path : String)
    (caption : String) (width : ℚ) : Except Err PdfState :=
  match readImg fs path with
  | none => .error (.missingFigure path)
  | some data => .ok (ReportPDF.afState m s path data caption width)

/-! Figure paths (lines 18, 374-450). -/

def FIG1 : String := FIGURES_DIR ++ ("/fig1_longevity_distribution.png")
def FIG2 : String := FIGURES_DIR ++ ("/fig2_longevity_by_class.png")
def FIG3 : String := FIGURES_DIR ++ ("/fig3_weight_vs_longevity.png")
def FIG4 : String := FIGURES_DIR ++ ("/fig4_top_orders.png")
def FIG5 : String := FIGURES_DIR ++ ("/fig5_qq_plots.png")

/-- The five figure files the build reads, in reading order. -/
def figPaths : List String := [FIG1, FIG2, FIG3, FIG4, FIG5]

/-- The reference list literal (lines 645-708). -/
def REFERENCES : List String :=
  [("Benjamini, Y., & Hochberg, Y. (1995). Controlling the false discovery rate: A practical and powerful approach to multiple testing. Journal of the Royal Statistical Society: Series B, 57(1), 289-300. https://doi.org/10.1111/j.2517-6161.1995.tb02031.x"),
   ("Cohen, J. (1988). Statistical Power Analysis for the Behavioral Sciences (2nd ed.). Lawrence Erlbaum Associates."),
   ("de Magalhaes, J. P., & Costa, J. (2009). A database of vertebrate longevity records and their relation to other life-history traits. Journal of Evolutionary Biology, 22(8), 1770-1774. https://doi.org/10.1111/j.1420-9101.2009.01783.x"),
   ("Dunn, O. J. (1961). Multiple comparisons among means. Journal of the American Statistical Association, 56(293), 52-64. https://doi.org/10.1080/01621459.1961.10482090"),
   ("Felsenstein, J. (1985). Phylogenies and the comparative method. The American Naturalist, 125(1), 1-15. https://doi.org/10.1086/284325"),
   ("Holm, S. (1979). A simple sequentially rejective multiple test procedure. Scandinavian Journal of Statistics, 6(2), 65-70."),
   ("Human Ageing Genomic Resources [HAGR]. (2023). AnAge: The Animal Ageing and Longevity Database. University of Liverpool. https://genomics.senescence.info/species/"),
   ("Kruskal, W. H., & Wallis, W. A. (1952). Use of ranks in one-criterion variance analysis. Journal of the American Statistical Association, 47(260), 583-621. https://doi.org/10.2307/2280779"),
   ("Lusa, L., Proust-Lima, C., Schmidt, C. O., Lee, K. J., le Cessie, S., Baillie, M., Lawrence, F., & Huebner, M. (2024). Initial data analysis for longitudinal studies to build a solid foundation for reproducible analysis. PLoS ONE, 19(5), e0295726. https://doi.org/10.1371/journal.pone.0295726"),
   ("McDonald, J. H. (2014). Handbook of Biological Statistics (3rd ed.). Sparky House Publishing."),
   ("Midway, S. R. (2020). Principles of effective data visualization. Patterns, 1(9), 100141. https://doi.org/10.1016/j.patter.2020.100141"),
   ("Speakman, J. R. (2005). Body size, energy metabolism and lifespan. Journal of Experimental Biology, 208(9), 1717-1730. https://doi.org/10.1242/jeb.01556")]

/-- Lines 123-126: construct the document and configure alias, auto page break and margins. -/
def configure (s : PdfState) : PdfState :=
  let t := s
  let t := t.alias_nb_pages
  let t := t.set_auto_page_break true 20
  let t := t.set_margins MARGIN MARGIN MARGIN
  t

/-- Lines 128-150: the title page. -/
def emitTitlePage (m : Metrics) (s : PdfState) : PdfState :=
  let t := s
  let t := t.add_page
  let t := t.ln 50
  let t := t.set_font ⟨("Helvetica"), ("B"), 24⟩
  let t := t.set_text_color ⟨30, 60, 120⟩
  let t := t.multi_cell m CONTENT_W 12 TITLE ("C")
  let t := t.ln 10
  let t := t.set_draw_color ⟨30, 60, 120⟩
  let t := t.line 60 t.y 150 t.y
  let t := t.ln 10
  let t := t.set_font ⟨("Helvetica"), (""), 14⟩
  let t := t.set_text_color ⟨60, 60, 60⟩
  let t := t.cell CONTENT_W 8 AUTHOR ("C") true
  let t := t.cell CONTENT_W 8 DATE ("C") true
  let t := t.cell CONTENT_W 8 COURSE ("C") true
  let t := t.ln 6
  let t := t.set_font ⟨("Helvetica"), ("I"), 11⟩
  let t := t.cell CONTENT_W 8 (("Dataset: ") ++ DATASET) ("C") true
  let t := t.cell CONTENT_W 8 (("Source: ") ++ SOURCE_URL) ("C") true
  t

/-- Lines 152-177: section 1, Overview. -/
def emitSection1 (m : Metrics) (s : PdfState) : PdfState :=
  let t := s
  let t := t.add_page
  let t := ReportPDF.section_heading t 1 ("Overview")
  let t := ReportPDF.body_text t m ("This report presents a statistical analysis of the AnAge database (de Magalhaes & Costa, 2009), a curated collection of longevity and life-history data for 4,645 species maintained by the Human Ageing Genomic Resources (HAGR) project. The primary research question is whether maximum lifespan differs significantly across five major vertebrate classes: Mammalia, Aves, Teleostei, Reptilia, and Amphibia. A secondary analysis quantifies the allometric relationship between body size and longevity.")
  let t := ReportPDF.body_text t m ("The analytical workflow follows the initial data analysis (IDA) framework for reproducible research (Lusa et al., 2024): exploratory screening of distributional properties and assumption violations precedes formal inference. Two inferential approaches -- a parametric baseline (one-way ANOVA) and a non-parametric alternative (Kruskal-Wallis H-test) -- are compared to demonstrate how assumption violations affect conclusions and to justify the final method selection. All code, data, and figures are available in the accompanying Jupyter notebook (analysis.ipynb).")
  t

/-- Lines 179-211: section 2, Dataset Description. -/
def emitSection2 (m : Metrics) (s : PdfState) : PdfState :=
  let t := s
  let t := ReportPDF.section_heading t 2 ("Dataset Description")
  let t := ReportPDF.body_text t m ("The AnAge database (version 2024, accessed February 2026) contains records for 4,645 species across 31 variables, including taxonomic classification (Kingdom through Species), life-history traits (maturity age, gestation period, litter size, birth weight, adult weight), and longevity metrics (maximum longevity in years, mortality rate parameters). The database was compiled and is maintained by de Magalhaes and Costa (2009) as part of the HAGR initiative at the University of Liverpool.")
  let t := ReportPDF.body_text t m ("For this analysis, the dataset was filtered to five major vertebrate classes containing 4,396 species (95% of the database): Aves (1,513 species), Mammalia (1,349), Teleostei (806), Reptilia (547), and Amphibia (181). After removing records with missing longevity values, 3,909 species were available for hypothesis testing. The primary analysis variables are maximum longevity in years (numeric response variable) and taxonomic class (categorical grouping variable). Adult weight in grams was used as a secondary numeric predictor for the allometric analysis (n = 3,131 species with both measurements).")
  let t := ReportPDF.body_text t m ("Data provenance: 85% of records carry an \x27acceptable\x27 quality rating from the HAGR curation team, 11% are rated \x27low,\x27 and 2% \x27questionable.\x27 Approximately 45% of specimens originate from wild populations and 41% from captive settings, with 14% of unknown origin. This mix of captive and wild data is an important caveat discussed in Section 7.")
  t

/-- Lines 213-260: section 3, Experimental Design and Analytical Approach. -/
def emitSection3 (m : Metrics) (s : PdfState) : PdfState :=
  let t := s
  let t := ReportPDF.section_heading t 3 ("Experimental Design and Analytical Approach")
  let t := ReportPDF.body_text t m ("The analytical workflow follows a structured, two-phase design motivated by the IDA framework (Lusa et al., 2024), which advocates systematic screening of data properties before conducting planned statistical analyses. This ensures that the choice of inferential method is informed by actual data characteristics rather than default assumptions.")
  let t := ReportPDF.subsection t ("Phase 1: Baseline Exploration (Descriptive)")
  let t := ReportPDF.body_text t m ("Descriptive statistics and visualizations establish a baseline understanding of the data. Summary statistics (mean, median, standard deviation) characterize central tendency and dispersion for each vertebrate class. Five visualizations -- histograms, box plots, scatter plots, bar charts, and Q-Q plots (Midway, 2020) -- reveal distributional shape, between-group differences, allometric relationships, sampling patterns, and assumption violations.")
  let t := ReportPDF.subsection t ("Phase 2: Inferential Testing (Baseline vs. Selected)")
  let t := ReportPDF.body_text t m ("The inferential phase compares two approaches to the same hypothesis test. The baseline approach is the standard one-way ANOVA, which compares group means and assumes normally distributed data with equal variances across groups. The selected approach is the Kruskal-Wallis H-test (Kruskal & Wallis, 1952), a non-parametric alternative that compares rank distributions without distributional assumptions.")
  let t := ReportPDF.body_text t m ("This comparison is meaningful for three reasons. First, the IDA screening phase revealed three critical assumption violations that undermine the parametric baseline: (1) severe non-normality (confirmed by Q-Q plots showing heavy right-tail departure in all classes; see Figure 5), (2) unequal variances (Levene\x27s test: W = 12.45, p < 0.001), and (3) highly unbalanced group sizes ranging from n = 162 (Amphibia) to n = 1,394 (Aves). Second, comparing both approaches demonstrates how assumption violations affect the magnitude of the detected effect: the parametric ANOVA underestimates the between-class signal because extreme outliers inflate within-group variance. Third, showing that both methods reach the same qualitative conclusion (reject H0) validates the robustness of the finding regardless of analytical method.")
  t

/-- Lines 262-355: section 4, Methods. -/
def emitSection4 (m : Metrics) (s : PdfState) : PdfState :=
  let t := s
  let t := ReportPDF.section_heading t 4 ("Methods")
  let t := ReportPDF.subsection t ("Descriptive Statistics")
  let t := ReportPDF.body_text t m ("Central tendency (mean, median) and dispersion (standard deviation, interquartile range) were computed for maximum longevity within each vertebrate class. Both measures of central tendency are reported because the mean is sensitive to extreme values in skewed distributions, while the median provides a robust estimate of the typical value (Lusa et al., 2024). Frequency counts for categorical variables (data quality ratings, specimen origin) characterize the composition and provenance of the dataset.")
  let t := ReportPDF.subsection t ("Visualizations")
  let t := ReportPDF.body_text t m ("Five visualizations were produced following principles for effective statistical graphics (Midway, 2020): (1) paired histograms compare raw and log10-transformed longevity distributions, demonstrating the necessity of transformation; (2) box plots compare longevity across classes, revealing medians, spreads, and outliers; (3) a scatter plot with OLS regression line quantifies the allometric weight-longevity relationship; (4) a horizontal bar chart of the top 10 taxonomic orders reveals sampling bias; and (5) Q-Q plots for the three largest classes assess normality, a prerequisite for ANOVA.")
  let t := ReportPDF.subsection t ("Hypothesis Test Selection and Justification")
  let t := ReportPDF.body_text t m ("The null hypothesis states that the distribution of maximum longevity is identical across all five vertebrate classes (H0). The alternative states that at least one class differs (H1). Significance level: alpha = 0.05.")
  let t := ReportPDF.body_text t m ("As a baseline, one-way ANOVA was applied. This is the standard parametric test for comparing means across k > 2 groups. However, ANOVA requires three assumptions (McDonald, 2014): (1) independence of observations, (2) normality within each group, and (3) homogeneity of variance (homoscedasticity). Assumptions (2) and (3) were tested and found to be violated:")
  let t := ReportPDF.bullet t m ("Non-normality: Q-Q plots for all classes show systematic right-tail departure from the normal reference line (Figure 5). The raw longevity distribution has a mean of 25.5 years vs. a median of 15.0 years, indicating severe positive skew.")
  let t := ReportPDF.bullet t m ("Unequal variances: Levene\x27s test rejected the null hypothesis of equal variances (W = 12.45, p = 4.59 x 10^-10), confirming heteroscedasticity. Standard deviations range from 10.7 (Amphibia) to 21.6 (Teleostei).")
  let t := ReportPDF.bullet t m ("Unbalanced groups: Sample sizes span a 9:1 ratio (162 to 1,394). Combined with heteroscedasticity, this imbalance makes the ANOVA F-test unreliable.")
  let t := ReportPDF.body_text t m ("Given these violations, the Kruskal-Wallis H-test (Kruskal & Wallis, 1952) was selected as the primary inferential method. This non-parametric test compares rank distributions rather than group means, making it robust to non-normality, unequal variances, and outliers. The trade-off is reduced statistical power compared to ANOVA when parametric assumptions hold -- but in this dataset, those assumptions do not hold.")
  let t := ReportPDF.subsection t ("Post-hoc Comparisons")
  let t := ReportPDF.body_text t m ("When the omnibus test rejects H0, pairwise Mann-Whitney U tests identify which specific class pairs differ. With k = 5 groups there are C(5,2) = 10 comparisons. The Bonferroni correction (Dunn, 1961) adjusts the significance threshold to alpha/10 = 0.005, controlling the family-wise Type I error rate. This correction is conservative: it minimizes false positives at the cost of increased Type II error (missed true differences).")
  let t := ReportPDF.subsection t ("Effect Sizes")
  let t := ReportPDF.body_text t m ("Two effect size measures are reported to enable direct comparison between approaches. For ANOVA: eta-squared (eta-sq = SS_between / SS_total), the proportion of total variance explained by group membership. For Kruskal-Wallis: epsilon-squared (epsilon-sq = H / (n - 1)), the non-parametric analogue estimating the proportion of variance in ranks explained by group membership. Conventional benchmarks (Cohen, 1988): ~0.01 = small, ~0.06 = medium, ~0.14 = large.")
  t

/-- Lines 357-372: section 5 heading and Descriptive Findings. -/
def emitSection5a (m : Metrics) (s : PdfState) : PdfState :=
  let t := s
  let t := ReportPDF.section_heading t 5 ("Results and Performance Evaluation")
  let t := ReportPDF.subsection t ("Descriptive Findings")
  let t := ReportPDF.body_text t m ("Across all 4,141 species with longevity data, the overall mean maximum longevity was 25.5 years with a median of 15.0 years, confirming severe right-skewness. Among the five vertebrate classes, Reptilia had the highest median longevity (17.8 years), followed by Mammalia (17.0), Aves (14.6), Amphibia (12.0), and Teleostei (10.0). However, Teleostei exhibited the widest variability (SD = 21.6 years), reflecting diversity from short-lived tropical fish to sturgeon exceeding 200 years.")
  t

/-- Lines 389-401: Allometric Relationship. -/
def emitSection5b (m : Metrics) (s : PdfState) : PdfState :=
  let t := s
  let t := ReportPDF.subsection t ("Allometric Relationship")
  let t := ReportPDF.body_text t m ("The scatter plot of log10(adult weight) vs. log10(maximum longevity) across 3,131 vertebrate species yielded a Pearson correlation coefficient of r = 0.568 (p < 0.001), indicating a moderate positive linear association on the log-log scale (Figure 3). This confirms the well-established allometric principle (Speakman, 2005) that larger-bodied species tend to live longer, though the relationship explains approximately 32% of the variance (r-squared = 0.32), leaving substantial residual variation attributable to factors such as metabolic rate, predation pressure, and reproductive strategy.")
  t

/-- Lines 419-442: baseline ANOVA and Kruskal-Wallis results. -/
def emitSection5c (m : Metrics) (s : PdfState) : PdfState :=
  let t := s
  let t := ReportPDF.subsection t ("Baseline Results: One-Way ANOVA (Parametric)")
  let t := ReportPDF.body_text t m ("The one-way ANOVA yielded F(4, 3904) = 12.67 with p = 3.03 x 10^-10, rejecting H0 at alpha = 0.05. The effect size was eta-squared = 0.013 (small), indicating that class membership explains approximately 1.3% of the total variance in raw longevity values. However, this result must be interpreted with caution because both the normality and equal-variance assumptions are violated (see Section 4). The low effect size is partly an artifact of the extreme right-skew: a small number of exceptionally long-lived species inflate within-group variance, which in turn suppresses the between-group signal in the ANOVA F-ratio.")
  let t := ReportPDF.subsection t ("Selected Results: Kruskal-Wallis H-Test (Non-Parametric)")
  let t := ReportPDF.body_text t m ("The Kruskal-Wallis H-test yielded H(4) = 193.5 with p = 9.33 x 10^-41 (n = 3,909 species across 5 classes), decisively rejecting H0. The effect size was epsilon-squared = 0.050 (small), indicating that class membership explains approximately 5.0% of the variance in ranked longevity. This is the primary and most reliable result of the hypothesis test, as the Kruskal-Wallis test does not depend on the violated assumptions.")
  t

/-- Lines 452-507: performance comparison and post-hoc comparisons. -/
def emitSection5d (m : Metrics) (s : PdfState) : PdfState :=
  let t := s
  let t := ReportPDF.subsection t ("Performance Comparison: Parametric vs. Non-Parametric")
  let t := ReportPDF.body_text t m ("Comparing the two approaches reveals important methodological insights. Both tests agree on the qualitative conclusion (reject H0; p < 0.001), confirming that the finding of between-class differences is robust to method selection. However, they differ in the magnitude of the detected effect:")
  let t := ReportPDF.bullet t m ("ANOVA eta-squared = 0.013 vs. Kruskal-Wallis epsilon-squared = 0.050. The non-parametric approach detects approximately 4 times more between-class signal.")
  let t := ReportPDF.bullet t m ("The discrepancy arises because ANOVA operates on raw values, where extreme outliers (species living hundreds to thousands of years) inflate within-group variance and suppress the F-ratio. The Kruskal-Wallis test operates on ranks, neutralizing outlier influence and revealing the between-class pattern more clearly.")
  let t := ReportPDF.bullet t m ("ANOVA p = 3.03 x 10^-10 vs. Kruskal-Wallis p = 9.33 x 10^-41. The non-parametric test achieves a p-value 31 orders of magnitude smaller, reflecting its greater sensitivity to rank-order differences in the presence of skew.")
  let t := ReportPDF.body_text t m ("This comparison demonstrates why method selection matters. A naive application of ANOVA to this dataset would produce a valid rejection of H0 but substantially underestimate the strength of the between-class signal. The IDA framework (Lusa et al., 2024) prevented this by ensuring that assumption checking preceded method selection.")
  let t := ReportPDF.subsection t ("Post-hoc Pairwise Comparisons")
  let t := ReportPDF.body_text t m ("After Bonferroni correction (adjusted alpha = 0.005), 9 of 10 class pairs showed statistically significant differences in longevity. The sole non-significant pair was Aves vs. Mammalia (adjusted p = 0.275), suggesting that birds and mammals share similar longevity distributions despite fundamental differences in physiology and body plan. The most divergent pair was Reptilia vs. Teleostei (adjusted p = 1.92 x 10^-30), consistent with the large median gap between these classes (17.8 vs. 10.0 years).")
  let t := ReportPDF.body_text t m ("A methodological trade-off: the Bonferroni correction is the most conservative multiple-comparison method, strictly controlling the family-wise Type I error rate. It is possible that the one non-significant result (Aves vs. Mammalia) represents a genuine small difference masked by overcorrection. Less conservative alternatives such as the Holm step-down procedure (Holm, 1979) or the Benjamini-Hochberg false discovery rate control (Benjamini & Hochberg, 1995) could be explored in future work.")
  t

/-- Lines 509-545: section 6, Interpretation for Non-Technical Audience. -/
def emitSection6 (m : Metrics) (s : PdfState) : PdfState :=
  let t := s
  let t := ReportPDF.section_heading t 6 ("Interpretation for Non-Technical Audience")
  let t := ReportPDF.body_text t m ("Different types of animals really do live different lengths of time, and this is not just coincidence -- it is a real biological pattern. We compared the maximum lifespans of nearly 4,000 species across five major groups of vertebrates (mammals, birds, bony fish, reptiles, and amphibians) and found strong evidence that the group an animal belongs to is meaningfully connected to how long it can live.")
  let t := ReportPDF.body_text t m ("Reptiles tend to have the longest lifespans among these groups, with a typical maximum around 18 years, while bony fish have the shortest at about 10 years. Interestingly, birds and mammals turned out to be very similar in their lifespan patterns -- around 15 to 17 years for a typical species -- even though they are very different kinds of animals.")
  let t := ReportPDF.body_text t m ("We also confirmed that bigger animals generally live longer. Body size explains roughly a third of the variation in how long species live (r = 0.57). The remaining two-thirds depends on other factors like diet, habitat, predation risk, and reproductive strategy.")
  let t := ReportPDF.body_text t m ("We tested this question using two different statistical methods -- a standard approach and a more robust alternative -- and both gave the same answer: the differences are real (p < 0.001). The robust method was actually better at detecting the differences because it handles unusual data more effectively. However, while the differences between groups are statistically real, the group label alone explains only about 5% of the variation in lifespan. Most of the variation comes from differences among species within each group.")
  t

/-- Lines 547-637: section 7, Limitations, Potential Bias, and Ethical Considerations. -/
def emitSection7 (m : Metrics) (s : PdfState) : PdfState :=
  let t := s
  let t := ReportPDF.section_heading t 7 ("Limitations, Potential Bias, and Ethical Considerations")
  let t := ReportPDF.subsection t ("Dataset Limitations")
  let t := ReportPDF.bullet t m ("Captive vs. wild specimen bias: Approximately 41% of longevity records come from captive specimens. Captive animals are protected from predation, disease, and starvation, which may inflate maximum longevity estimates relative to wild populations. This is particularly pronounced for large mammals and birds commonly kept in zoos.")
  let t := ReportPDF.bullet t m ("Missing data: 19 of 31 variables contain missing values. Metabolic rate is only 14% complete, preventing metabolic scaling analysis. Even the primary response variable (maximum longevity) is missing for 10.9% of species. These missing records are unlikely to be random -- species with shorter lifespans in remote habitats may be systematically understudied (Lusa et al., 2024).")
  let t := ReportPDF.subsection t ("Measurement Bias")
  let t := ReportPDF.bullet t m ("Maximum longevity is an extreme-value statistic that is systematically harder to capture for species with small populations, short generation times, or elusive behavior. Teleostei and Amphibia are particularly affected: many fish species are monitored only through catch records, and amphibians in tropical regions may never be recaptured after initial marking. As a result, the recorded maximum longevity for these taxa likely underestimates their true biological potential, compressing between-class differences.")
  let t := ReportPDF.bullet t m ("Phylogenetic non-independence: Species sharing recent common ancestry are not statistically independent observations (Felsenstein, 1985). The Kruskal-Wallis test assumes independent samples, but closely related species within each class will have correlated longevity values. This inflates the effective sample size and may produce artificially narrow confidence intervals. Phylogenetic comparative methods (e.g., phylogenetic generalized least squares) would address this limitation but require a resolved phylogeny for all 3,909 species.")
  let t := ReportPDF.subsection t ("Sampling and Representation Bias")
  let t := ReportPDF.bullet t m ("Taxonomic overrepresentation: The database heavily favors well-studied taxa. Passeriformes (songbirds) alone contributes 619 species, while entire classes like Amphibia have only 181 entries. Results are therefore more statistically reliable for Aves and Mammalia than for Amphibia, where the smaller sample reduces power.")
  let t := ReportPDF.bullet t m ("Survivorship bias: Only species with published longevity records are included. Recently discovered, rare, or data-deficient species are systematically excluded, potentially skewing toward well-documented taxa that may not represent the full diversity of vertebrate lifespans.")
  let t := ReportPDF.bullet t m ("Geographic bias: Species from well-funded research regions (North America, Europe, Australasia) are overrepresented compared to tropical and developing-world fauna, limiting global generalizability.")
  let t := ReportPDF.subsection t ("Ethical Considerations")
  let t := ReportPDF.bullet t m ("Conservation policy risk: If longevity data were used to inform conservation resource allocation, the taxonomic and geographic biases could lead to misallocation of resources -- prioritizing already well-studied species while neglecting data-deficient but ecologically critical taxa. Decision-makers should account for data completeness before drawing policy conclusions.")
  let t := ReportPDF.bullet t m ("Data quality transparency: While 85% of records are rated \x27acceptable\x27 by the HAGR curation team, 13% are rated \x27low\x27 or \x27questionable.\x27 Presenting statistical results without acknowledging these quality tiers could overstate precision and reliability.")
  let t := ReportPDF.bullet t m ("Captive-specimen ethics: The use of captive-derived longevity data implicitly depends on animals maintained in zoos and research facilities. Any downstream application of these findings should consider the ethical dimensions of captive animal data sourcing.")
  t

/-- Lines 639-712: section 8, References (heading, body font, reference list loop). -/
def emitSection8 (m : Metrics) (s : PdfState) : PdfState :=
  let t := s
  let t := ReportPDF.section_heading t 8 ("References")
  let t := t.set_font FONT_BODY
  REFERENCES.foldl (fun t r => (t.multi_cell m CONTENT_W (5.5 : ℚ) r ("J")).ln 3) t

/-- Caption of figure 1 (line 374). -/
def CAP1 : String :=
  "Figure 1. Distribution of maximum longevity: raw (left) and log10-transformed (right). The raw histogram shows extreme right-skew; the log transformation reveals an approximately bell-shaped pattern."

/-- Caption of figure 2 (line 382). -/
def CAP2 : String :=
  "Figure 2. Box plots of log10(maximum longevity) by vertebrate class, ordered by median. Sample sizes annotated above each box."

/-- Caption of figure 3 (line 403). -/
def CAP3 : String :=
  "Figure 3. Allometric scaling of body size and longevity across vertebrate classes (n = 3,131). Dashed line: OLS regression (r = 0.568)."

/-- Caption of figure 4 (line 411). -/
def CAP4 : String :=
  "Figure 4. Top 10 taxonomic orders by species count in the AnAge database, colored by class. Reveals sampling bias toward well-studied taxa such as Passeriformes (619 species)."

/-- Caption of figure 5 (line 444). -/
def CAP5 : String :=
  "Figure 5. Q-Q plots for the three largest classes. Systematic right-tail departure from the normal reference line confirms non-normality, justifying the non-parametric test selection."

/-- The emit phase of `build_report` when all five figure reads succeed, as
a function of the metrics oracle and the five figures\x27 bytes. -/
def okRun (m : Metrics) (b1 b2 b3 b4 b5 : List Nat) : PdfState :=
  emitSection8 m (emitSection7 m (emitSection6 m (emitSection5d m
    (ReportPDF.afState m
      (emitSection5c m
        (ReportPDF.afState m
          (ReportPDF.afState m
            (emitSection5b m
              (ReportPDF.afState m
                (ReportPDF.afState m
                  (emitSection5a m (emitSection4 m (emitSection3 m
                    (emitSection2 m (emitSection1 m (emitTitlePage m
                      (configure initState)))))))
                  FIG1 b1 CAP1 (CONTENT_W - 10))
                FIG2 b2 CAP2 (CONTENT_W - 20)))
            FIG3 b3 CAP3 (CONTENT_W - 10))
          FIG4 b4 CAP4 (CONTENT_W - 20)))
      FIG5 b5 CAP5 (CONTENT_W - 10)))))

/-- The emit phase of `build_report` (lines 122-712): all layout up to, but
not including, the output step.  It is pure except for the five figure
loads, each of which aborts the run when it fails. -/
def build_run (m : Metrics) (fs : FS) : Except Err PdfState :=
  let s0 := emitSection5a m (emitSection4 m (emitSection3 m (emitSection2 m
    (emitSection1 m (emitTitlePage m (configure initState))))))
  match ReportPDF.add_figure m fs s0 FIG1 CAP1 (CONTENT_W - 10) with
  | .error e => .error e
  | .ok s1 =>
  match ReportPDF.add_figure m fs s1 FIG2 CAP2 (CONTENT_W - 20) with
  | .error e => .error e
  | .ok s2 =>
  match ReportPDF.add_figure m fs (emitSection5b m s2) FIG3 CAP3 (CONTENT_W - 10) with
  | .error e => .error e
  | .ok s3 =>
  match ReportPDF.add_figure m fs s3 FIG4 CAP4 (CONTENT_W - 20) with
  | .error e => .error e
  | .ok s4 =>
  match ReportPDF.add_figure m fs (emitSection5c m s4) FIG5 CAP5 (CONTENT_W - 10) with
  | .error e => .error e
  | .ok s5 =>
  .ok (emitSection8 m (emitSection7 m (emitSection6 m (emitSection5d m s5))))

/-- Observable outcome of one invocation of the script: the final status,
the resulting filesystem, and the console lines printed. -/
structure RunResult where
  status : Except Err Unit
  fs : FS
  console : List String

/-- `build_report` (lines 122-720): emit everything, then write the primary
output, copy it to the alias path, and print the two confirmation lines.
`now` is the clock fpdf reads when stamping the document; `writeOk` and
`copyOk` inject environment failures of the two file operations (an
unwritable output location). -/
def build_report (m : Metrics) (fs : FS) (now : Nat)
    (writeOk copyOk : Bool) : RunResult :=
  match build_run m fs with
  | .error e => ⟨.error e, fs, []⟩
  | .ok s =>
    if writeOk then
      let fs1 := fsSet fs OUTPUT_PRIMARY (.pdf (finalize s now))
      match copy2 fs1 OUTPUT_PRIMARY OUTPUT_COPY copyOk with
      | .error e => ⟨.error e, fs1, []⟩
      | .ok fs2 =>
        ⟨.ok (), fs2, [("Generated: ") ++ OUTPUT_PRIMARY, ("Copied to: ") ++ OUTPUT_COPY]⟩
    else ⟨.error .outputNotWritable, fs, []⟩

/-! Extractors over the event trace and concrete fixtures, used to state
and witness the claims. -/

/-- Value of the leading decimal digits of a character list. -/
def leadNatAux : List Char → Nat → Nat
  | c :: rest, acc =>
    if c.isDigit then leadNatAux rest (10 * acc + (c.toNat - 48)) else acc
  | [], acc => acc

/-- Value of the leading decimal digits of a string (reads the number off a
section heading such as `3. Methods`). -/
def leadNat (s : String) : Nat := leadNatAux s.data 0

/-- The section number carried by a heading event: a `cell` drawn in the
section-heading font `FONT_H2` (only `section_heading` draws cells in that
font). -/
def headingNumOf : Ev → Option Nat
  | .text f _ _ _ str _ => if f = FONT_H2 then some (leadNat str) else none
  | _ => none

/-- Section heading numbers of a trace in document (emission) order. -/
def headingNums (l : List Ev) : List Nat := (l.filterMap headingNumOf).reverse

/-- A font the spec's typography table allows: Helvetica family at one of
the fixed sizes 24, 14, 12, 11, 10, 9 pt. -/
def fontOK (f : Font) : Bool :=
  f.family == "Helvetica" &&
    (f.size == 24 || f.size == 14 || f.size == 12 || f.size == 11 ||
      f.size == 10 || f.size == 9)

/-- Whether an event's font (if it has one) is allowed. -/
def evFontOK : Ev → Bool
  | .text f _ _ _ _ _ => fontOK f
  | .wrapText f _ _ _ _ _ => fontOK f
  | _ => true

/-- Whether every text event of a trace uses an allowed font. -/
def fontsOK (l : List Ev) : Bool := l.all evFontOK

/-- The font of an event that draws the report title string. -/
def titleFontOf : Ev → Option Font
  | .text f _ _ _ str _ => if str = TITLE then some f else none
  | .wrapText f _ _ _ str _ => if str = TITLE then some f else none
  | _ => none

/-- All fonts in which the report title string is drawn in a trace. -/
def titleFonts (l : List Ev) : List Font := l.filterMap titleFontOf

/-- The page-geometry configuration of a state (page format, margins, auto
page break, alias declaration). -/
structure PageConfig where
  pageW : ℚ
  pageH : ℚ
  lMargin : ℚ
  tMargin : ℚ
  rMargin : ℚ
  autoBreak : Bool
  breakMargin : ℚ
  aliasNb : Bool
deriving DecidableEq

/-- Project the configuration out of a document state. -/
def cfgOf (s : PdfState) : PageConfig :=
  ⟨s.pageW, s.pageH, s.lMargin, s.tMargin, s.rMargin, s.autoBreak,
    s.breakMargin, s.aliasNb⟩

/-- The four characters of the unresolved total-page-count alias. -/
def nbAlias : List Char := ['{', 'n', 'b', '}']

/-- A concrete metrics oracle for witnesses: each `multi_cell` advances by
one line height, each image by its width, neither breaks the page. -/
def mTest : Metrics :=
  ⟨fun y p _ h _ => (y + h, p), fun y p _ w => (y + w, p)⟩

/-- A filesystem on which every path reads as a one-byte file. -/
def fsTest : FS := fun _ => some (.bytes [7])

/-- The empty filesystem (every figure is missing). -/
def fsNone : FS := fun _ => none

/-- Erase the creation timestamp of a PDF file (for comparing outputs of
two runs up to the embedded timestamp); raw bytes are left unchanged. -/
def stripTs : FileData → FileData
  | .pdf d => .pdf { d with timestamp := 0 }
  | .bytes bs => .bytes bs

/-! Lemmas about the `{nb}` substitution and decimal rendering. -/

theorem resolveNb_nil (rep : List Char) : resolveNb rep [] = [] := rfl

theorem resolveNb_alias (rep l : List Char) :
    resolveNb rep ('{' :: 'n' :: 'b' :: '}' :: l) = rep ++ resolveNb rep l := rfl

theorem resolveNb_cons (rep : List Char) (c : Char) (l : List Char)
    (hc : c ≠ '{') : resolveNb rep (c :: l) = c :: resolveNb rep l := by
  rw [resolveNb.eq_def]
  split
  · next heq =>
    injection heq with h1 _
    exact absurd h1 hc
  · next heq =>
    injection heq with h1 h2
    rw [h1, h2]
  · next heq => exact absurd heq (by simp)

theorem resolveNb_append_of_no_brace (rep A B : List Char) (hA : '{' ∉ A) :
    resolveNb rep (A ++ B) = A ++ resolveNb rep B := by
  induction A with
  | nil => simp
  | cons a A ih =>
    have ha : a ≠ '{' := fun h => hA (h ▸ List.mem_cons_self a A)
    rw [List.cons_append, resolveNb_cons rep a (A ++ B) ha,
      ih (fun h => hA (List.mem_cons_of_mem a h))]
    rfl

theorem digitChar_ne_brace (d : Nat) (hd : d < 10) : digitChar d ≠ '{' := by
  interval_cases d <;> decide

theorem natCharsAux_no_brace (fuel n : Nat) : '{' ∉ natCharsAux fuel n := by
  induction fuel generalizing n with
  | zero => simp [natCharsAux]
  | succ fuel ih =>
    rw [natCharsAux]
    split
    · next h =>
      intro hm
      exact digitChar_ne_brace n h (List.mem_singleton.mp hm).symm
    · next h =>
      intro hm
      rcases List.mem_append.mp hm with h2 | h2
      · exact ih (n / 10) h2
      · exact digitChar_ne_brace (n % 10) (Nat.mod_lt n (by omega))
          (List.mem_singleton.mp h2).symm

theorem natChars_no_brace (n : Nat) : '{' ∉ natChars n :=
  natCharsAux_no_brace (n + 1) n

theorem pageLabel_data (n : Nat) :
    (pageLabel n).data = ('P' :: 'a' :: 'g' :: 'e' :: ' ' :: natChars n) ++
      ['/', '{', 'n', 'b', '}'] := by
  simp [pageLabel, natStr, String.data_append]

theorem resolveStr_pageLabel (n total : Nat) :
    resolveStr total (pageLabel n) =
      ("Page ") ++ natStr n ++ ("/") ++ natStr total := by
  have h1 : resolveNb (natChars total) ((pageLabel n).data) =
      ('P' :: 'a' :: 'g' :: 'e' :: ' ' :: natChars n) ++
        ('/' :: natChars total) := by
    rw [pageLabel_data]
    have hA : '{' ∉ ('P' :: 'a' :: 'g' :: 'e' :: ' ' :: natChars n) := by
      intro hm
      simp only [List.mem_cons] at hm
      rcases hm with h | h | h | h | h | h
      · exact absurd h (by decide)
      · exact absurd h (by decide)
      · exact absurd h (by decide)
      · exact absurd h (by decide)
      · exact absurd h (by decide)
      · exact natChars_no_brace n h
    rw [resolveNb_append_of_no_brace _ _ _ hA]
    have h2 : resolveNb (natChars total) ['/', '{', 'n', 'b', '}'] =
        '/' :: natChars total := by
      rw [show (['/', '{', 'n', 'b', '}'] : List Char) =
        '/' :: ('{' :: 'n' :: 'b' :: '}' :: []) from rfl,
        resolveNb_cons _ _ _ (by decide), resolveNb_alias, resolveNb_nil,
        List.append_nil]
    rw [h2]
  apply String.ext
  rw [resolveStr]
  show resolveNb (natChars total) (pageLabel n).data = _
  rw [h1]
  simp [natStr, String.data_append]

theorem resolved_data_no_brace (n total : Nat) :
    '{' ∉ (resolveStr total (pageLabel n)).data := by
  rw [resolveStr_pageLabel]
  intro h
  rw [String.data_append, String.data_append, String.data_append] at h
  rcases List.mem_append.mp h with h1 | h2
  · rcases List.mem_append.mp h1 with h3 | h4
    · rcases List.mem_append.mp h3 with h5 | h6
      · exact absurd h5 (by decide)
      · exact natChars_no_brace n h6
    · exact absurd h4 (by decide)
  · exact natChars_no_brace total h2

/-- C3: on any state whose page number is `N`, the `footer` callback emits
exactly one centered cell whose text is the literal `Page N/{nb}`; the
output-time substitution with any page total `T` turns that text into
exactly `Page N/T`, leaving no occurrence of the `{nb}` placeholder; the
builder declares the placeholder via `alias_nb_pages`, and on an
alias-declaring state `finalize` applies the substitution to every text
event with the final page count as the total. -/
theorem footer_page_label_resolved (s : PdfState) (total now : Nat) :
    (ReportPDF.footer s).events =
      Ev.text FONT_SMALL ⟨140, 140, 140⟩ 0 10 (pageLabel s.pageNo) ("C") ::
        s.events ∧
    resolveStr total (pageLabel s.pageNo) =
      ("Page ") ++ natStr s.pageNo ++ ("/") ++ natStr total ∧
    ¬ (nbAlias <:+: (resolveStr total (pageLabel s.pageNo)).data) ∧
    (configure initState).aliasNb = true ∧
    (s.aliasNb = true →
      (finalize s now).events = s.events.map (resolveEv s.pageNo) ∧
      (finalize s now).nbTotal = s.pageNo) := by
  refine ⟨?_, resolveStr_pageLabel s.pageNo total, ?_, rfl, ?_⟩
  · simp [ReportPDF.footer, PdfState.cell, PdfState.set_text_color,
      PdfState.set_font, PdfState.set_y]
  · intro h
    exact resolved_data_no_brace s.pageNo total (h.subset (by decide))
  · intro h
    simp [finalize, h]

/-- Witness for C3 at a concrete state: the alias-declaring hypothesis is
discharged on `configure initState`. -/
theorem footer_page_label_resolved_witness :
    (finalize (configure initState) 5).events =
      (configure initState).events.map
        (resolveEv (configure initState).pageNo) ∧
    (finalize (configure initState) 5).nbTotal =
      (configure initState).pageNo :=
  (footer_page_label_resolved (configure initState) 7 5).2.2.2.2 rfl

/-- C4: the running header does nothing at all on the first (title) page,
and on every other page it appends exactly the title in small 9 pt gray
(100,100,100) text followed by a light-gray horizontal separator line. -/
theorem header_skipped_on_first_page_only (s : PdfState) :
    (s.pageNo = 1 → ReportPDF.header s = s) ∧
    (s.pageNo ≠ 1 →
      (ReportPDF.header s).events =
        Ev.rule ⟨180, 180, 180⟩ MARGIN (s.y + 4) (PAGE_W - MARGIN) (s.y + 4) ::
          Ev.text FONT_SMALL ⟨100, 100, 100⟩ 0 8 TITLE ("L") :: s.events) := by
  constructor
  · intro h
    simp [ReportPDF.header, h]
  · intro h
    simp [ReportPDF.header, h, PdfState.cell, PdfState.set_text_color,
      PdfState.set_font, PdfState.set_draw_color, PdfState.ln, PdfState.line]

/-- Witness for C4: both branches exercised on concrete states (`initState`
has page number 0, so its header renders; with page number forced to 1 the
header is the identity). -/
theorem header_skipped_on_first_page_only_witness :
    ReportPDF.header { initState with pageNo := 1 } =
      { initState with pageNo := 1 } ∧
    (ReportPDF.header initState).events =
      Ev.rule ⟨180, 180, 180⟩ MARGIN (initState.y + 4) (PAGE_W - MARGIN)
          (initState.y + 4) ::
        Ev.text FONT_SMALL ⟨100, 100, 100⟩ 0 8 TITLE ("L") ::
          initState.events :=
  ⟨(header_skipped_on_first_page_only { initState with pageNo := 1 }).1 rfl,
    (header_skipped_on_first_page_only initState).2 (by decide)⟩

/-- C5: when the figure file is readable, `add_figure` succeeds and lays
out: a page break exactly when the cursor plus the heuristic height
estimate `width * 0.6 + 15` exceeds 270, then the image horizontally
centered at `x = (210 - width) / 2` with the requested width, then the
caption as an italic (10 pt), centered, gray wrapped cell beneath it. -/
theorem add_figure_layout (m : Metrics) (fs : FS) (s : PdfState)
    (path caption : String) (data : List Nat) (width : ℚ)
    (h : readImg fs path = some data) :
    ReportPDF.add_figure m fs s path caption width =
      .ok (ReportPDF.afState m s path data caption width) ∧
    (ReportPDF.afState m s path data caption width).events =
      Ev.wrapText FONT_ITALIC ⟨80, 80, 80⟩ CONTENT_W 5 caption ("C") ::
        Ev.image path data ((PAGE_W - width) / 2) width ::
          (if s.y + (width * (0.6 : ℚ) + 15) > 270
            then Ev.pageBreak :: s.events else s.events) := by
  constructor
  · simp [ReportPDF.add_figure, h]
  · by_cases hc : s.y + (width * (0.6 : ℚ) + 15) > 270 <;>
      simp [ReportPDF.afState, PdfState.image, PdfState.ln, PdfState.set_font,
        PdfState.set_text_color, PdfState.multi_cell, PdfState.add_page, hc]

/-- Witness for C5 at concrete inputs (the readability hypothesis holds on
`fsTest` by computation). -/
theorem add_figure_layout_witness :
    ReportPDF.add_figure mTest fsTest initState FIG1 ("c") 170 =
      .ok (ReportPDF.afState mTest initState FIG1 [7] ("c") 170) :=
  (add_figure_layout mTest fsTest initState FIG1 ("c") [7] 170 rfl).1

/-- C10: each emit operation that changes the text color restores it to
black before returning: `section_heading`, `subsection`, and a successful
`add_figure` (whose layout state is `afState`) all leave the current text
color at (0,0,0). -/
theorem helpers_restore_black_text (m : Metrics) (s : PdfState) (n : Nat)
    (ttl path caption : String) (data : List Nat) (width : ℚ) :
    (ReportPDF.section_heading s n ttl).curTextColor = ⟨0, 0, 0⟩ ∧
    (ReportPDF.subsection s ttl).curTextColor = ⟨0, 0, 0⟩ ∧
    (ReportPDF.afState m s path data caption width).curTextColor =
      ⟨0, 0, 0⟩ := by
  refine ⟨?_, ?_, ?_⟩
  · simp [ReportPDF.section_heading, PdfState.cell, PdfState.set_text_color,
      PdfState.set_font, PdfState.set_draw_color, PdfState.ln, PdfState.line]
  · simp [ReportPDF.subsection, PdfState.cell, PdfState.set_text_color,
      PdfState.set_font, PdfState.ln]
  · simp [ReportPDF.afState, PdfState.image, PdfState.ln, PdfState.set_font,
      PdfState.set_text_color, PdfState.multi_cell, PdfState.add_page]

/-! Success and failure analysis of the emit phase. -/

theorem add_figure_fail (m : Metrics) (fs : FS) (s : PdfState)
    (path caption : String) (width : ℚ) (h : readImg fs path = none) :
    ReportPDF.add_figure m fs s path caption width =
      .error (.missingFigure path) := by
  simp [ReportPDF.add_figure, h]

theorem build_run_ok (m : Metrics) (fs : FS) (b1 b2 b3 b4 b5 : List Nat)
    (h1 : readImg fs FIG1 = some b1) (h2 : readImg fs FIG2 = some b2)
    (h3 : readImg fs FIG3 = some b3) (h4 : readImg fs FIG4 = some b4)
    (h5 : readImg fs FIG5 = some b5) :
    build_run m fs = .ok (okRun m b1 b2 b3 b4 b5) := by
  simp [build_run, ReportPDF.add_figure, h1, h2, h3, h4, h5, okRun]

theorem build_run_error_of_missing (m : Metrics) (fs : FS)
    (h : ∃ p ∈ figPaths, readImg fs p = none) :
    ∃ q, build_run m fs = .error (.missingFigure q) ∧ readImg fs q = none := by
  rcases h1 : readImg fs FIG1 with _ | b1
  · exact ⟨FIG1, by simp [build_run, ReportPDF.add_figure, h1], h1⟩
  rcases h2 : readImg fs FIG2 with _ | b2
  · exact ⟨FIG2, by simp [build_run, ReportPDF.add_figure, h1, h2], h2⟩
  rcases h3 : readImg fs FIG3 with _ | b3
  · exact ⟨FIG3, by simp [build_run, ReportPDF.add_figure, h1, h2, h3], h3⟩
  rcases h4 : readImg fs FIG4 with _ | b4
  · exact ⟨FIG4, by simp [build_run, ReportPDF.add_figure, h1, h2, h3, h4], h4⟩
  rcases h5 : readImg fs FIG5 with _ | b5
  · exact ⟨FIG5,
      by simp [build_run, ReportPDF.add_figure, h1, h2, h3, h4, h5], h5⟩
  exfalso
  rcases h with ⟨p, hp, hnone⟩
  simp only [figPaths, List.mem_cons, List.not_mem_nil, or_false] at hp
  rcases hp with rfl | rfl | rfl | rfl | rfl
  · rw [h1] at hnone; exact Option.noConfusion hnone
  · rw [h2] at hnone; exact Option.noConfusion hnone
  · rw [h3] at hnone; exact Option.noConfusion hnone
  · rw [h4] at hnone; exact Option.noConfusion hnone
  · rw [h5] at hnone; exact Option.noConfusion hnone

theorem run_ok_elim (m : Metrics) (fs : FS) (s : PdfState)
    (h : build_run m fs = .ok s) :
    ∃ b1 b2 b3 b4 b5, readImg fs FIG1 = some b1 ∧ readImg fs FIG2 = some b2 ∧
      readImg fs FIG3 = some b3 ∧ readImg fs FIG4 = some b4 ∧
      readImg fs FIG5 = some b5 ∧ s = okRun m b1 b2 b3 b4 b5 := by
  rcases h1 : readImg fs FIG1 with _ | b1
  · rw [build_run_error_of_missing m fs ⟨FIG1, by simp [figPaths], h1⟩
      |>.choose_spec.1] at h
    exact Except.noConfusion h
  rcases h2 : readImg fs FIG2 with _ | b2
  · simp [build_run, ReportPDF.add_figure, h1, h2] at h
  rcases h3 : readImg fs FIG3 with _ | b3
  · simp [build_run, ReportPDF.add_figure, h1, h2, h3] at h
  rcases h4 : readImg fs FIG4 with _ | b4
  · simp [build_run, ReportPDF.add_figure, h1, h2, h3, h4] at h
  rcases h5 : readImg fs FIG5 with _ | b5
  · simp [build_run, ReportPDF.add_figure, h1, h2, h3, h4, h5] at h
  refine ⟨b1, b2, b3, b4, b5, rfl, rfl, rfl, rfl, rfl, ?_⟩
  rw [build_run_ok m fs b1 b2 b3 b4 b5 h1 h2 h3 h4 h5] at h
  exact (Except.ok.inj h).symm

/-- C1: whenever a run reports success, exactly the two output files were
produced: the primary `module_summary.pdf` and the alias
`Statistical_Analysis_Report.pdf` hold the very same finalized document
(the alias is the file copy of the already-written primary), and no other
path of the filesystem was touched. -/
theorem build_success_two_identical_outputs (m : Metrics) (fs : FS)
    (now : Nat) (writeOk copyOk : Bool)
    (h : (build_report m fs now writeOk copyOk).status = .ok ()) :
    ∃ d : PdfDoc,
      (build_report m fs now writeOk copyOk).fs OUTPUT_PRIMARY =
        some (.pdf d) ∧
      (build_report m fs now writeOk copyOk).fs OUTPUT_COPY =
        some (.pdf d) ∧
      ∀ q, q ≠ OUTPUT_PRIMARY → q ≠ OUTPUT_COPY →
        (build_report m fs now writeOk copyOk).fs q = fs q := by
  rcases hr : build_run m fs with e | s
  · rw [build_report] at h
    rw [hr] at h
    exact Except.noConfusion h
  rcases writeOk with _ | _
  · rw [build_report] at h
    rw [hr] at h
    simp at h
  rcases copyOk with _ | _
  · rw [build_report] at h
    rw [hr] at h
    simp [copy2] at h
  refine ⟨finalize s now, ?_, ?_, ?_⟩ <;>
    simp [build_report, hr, copy2, fsSet, OUTPUT_PRIMARY, OUTPUT_COPY,
      PROJECT_DIR]
  intro q hq1 hq2
  simp [hq1, hq2]

/-- Witness for C1: a successful concrete run (success hypothesis holds by
computation on `fsTest`). -/
theorem build_success_two_identical_outputs_witness :
    ∃ d : PdfDoc,
      (build_report mTest fsTest 3 true true).fs OUTPUT_PRIMARY =
        some (.pdf d) ∧
      (build_report mTest fsTest 3 true true).fs OUTPUT_COPY =
        some (.pdf d) ∧
      ∀ q, q ≠ OUTPUT_PRIMARY → q ≠ OUTPUT_COPY →
        (build_report mTest fsTest 3 true true).fs q = fsTest q :=
  build_success_two_identical_outputs mTest fsTest 3 true true rfl

/-- C2: when any one of the five referenced figure files is missing or
unreadable, the run aborts with a missing-figure error and the filesystem
is completely untouched (in particular neither output file is created or
modified) and nothing is printed: every figure is placed into the
in-memory document before the single output/copy step. -/
theorem missing_figure_aborts_without_output (m : Metrics) (fs : FS)
    (now : Nat) (writeOk copyOk : Bool)
    (h : ∃ p ∈ figPaths, readImg fs p = none) :
    ∃ q, build_report m fs now writeOk copyOk =
        ⟨.error (.missingFigure q), fs, []⟩ ∧ readImg fs q = none := by
  rcases build_run_error_of_missing m fs h with ⟨q, hq, hnone⟩
  refine ⟨q, ?_, hnone⟩
  rw [build_report, hq]

/-- Witness for C2: a concrete run on the empty filesystem (the
missing-figure hypothesis holds by computation). -/
theorem missing_figure_aborts_without_output_witness :
    ∃ q, build_report mTest fsNone 3 true true =
        ⟨.error (.missingFigure q), fsNone, []⟩ ∧ readImg fsNone q = none :=
  missing_figure_aborts_without_output mTest fsNone 3 true true
    ⟨FIG1, by simp [figPaths], rfl⟩

/-- C9: the no-partial-output guarantee is asymmetric: the primary file is
written strictly before the copy is attempted, so when the copy step fails
the primary remains on disk (holding the finalized document) while the
alias path is untouched; and the two console lines are printed only after
both file operations succeed, so every failing run prints nothing. -/
theorem primary_written_before_copy (m : Metrics) (fs : FS) (now : Nat)
    (hs : ∃ s, build_run m fs = .ok s) :
    (∃ d, (build_report m fs now true false).fs OUTPUT_PRIMARY =
      some (.pdf d)) ∧
    (build_report m fs now true false).fs OUTPUT_COPY = fs OUTPUT_COPY ∧
    (build_report m fs now true false).status = .error .copyFailed ∧
    (build_report m fs now true false).console = [] ∧
    (∀ writeOk copyOk,
      (build_report m fs now writeOk copyOk).console ≠ [] →
      (build_report m fs now writeOk copyOk).status = .ok ()) := by
  rcases hs with ⟨s, hr⟩
  refine ⟨⟨finalize s now, ?_⟩, ?_, ?_, ?_, ?_⟩
  · simp [build_report, hr, copy2, fsSet]
  · simp [build_report, hr, copy2, fsSet, OUTPUT_PRIMARY, OUTPUT_COPY,
      PROJECT_DIR]
  · simp [build_report, hr, copy2]
  · simp [build_report, hr, copy2]
  · intro writeOk copyOk hc
    rcases writeOk with _ | _
    · rw [build_report] at hc
      rw [hr] at hc
      simp at hc
    rcases copyOk with _ | _
    · rw [build_report] at hc
      rw [hr] at hc
      simp [copy2] at hc
    rw [build_report, hr]
    simp [copy2, fsSet]

/-- Witness for C9: a concrete run whose emit phase succeeds (discharged
via `build_run_ok` on `fsTest`) but whose copy step fails. -/
theorem primary_written_before_copy_witness :
    (∃ d, (build_report mTest fsTest 0 true false).fs OUTPUT_PRIMARY =
      some (.pdf d)) ∧
    (build_report mTest fsTest 0 true false).fs OUTPUT_COPY =
      fsTest OUTPUT_COPY ∧
    (build_report mTest fsTest 0 true false).status = .error .copyFailed ∧
    (build_report mTest fsTest 0 true false).console = [] ∧
    (∀ writeOk copyOk,
      (build_report mTest fsTest 0 writeOk copyOk).console ≠ [] →
      (build_report mTest fsTest 0 writeOk copyOk).status = .ok ()) :=
  primary_written_before_copy mTest fsTest 0
    ⟨okRun mTest [7] [7] [7] [7] [7],
      build_run_ok mTest fsTest [7] [7] [7] [7] [7] rfl rfl rfl rfl rfl⟩

/-- C8: the build is deterministic.  Two runs with the same metrics and
with filesystems that agree on the five figure files have the same status
and console output, and on success they store documents at the two output
paths that are identical once the embedded creation timestamp is erased;
the two runs may use different clocks, so the timestamp is the only
difference. -/
theorem build_deterministic_mod_timestamp (m : Metrics) (fs1 fs2 : FS)
    (t1 t2 : Nat) (writeOk copyOk : Bool)
    (h : ∀ p ∈ figPaths, readImg fs1 p = readImg fs2 p) :
    (build_report m fs1 t1 writeOk copyOk).status =
      (build_report m fs2 t2 writeOk copyOk).status ∧
    (build_report m fs1 t1 writeOk copyOk).console =
      (build_report m fs2 t2 writeOk copyOk).console ∧
    ((build_report m fs1 t1 writeOk copyOk).status = .ok () →
      Option.map stripTs
          ((build_report m fs1 t1 writeOk copyOk).fs OUTPUT_PRIMARY) =
        Option.map stripTs
          ((build_report m fs2 t2 writeOk copyOk).fs OUTPUT_PRIMARY) ∧
      Option.map stripTs
          ((build_report m fs1 t1 writeOk copyOk).fs OUTPUT_COPY) =
        Option.map stripTs
          ((build_report m fs2 t2 writeOk copyOk).fs OUTPUT_COPY)) := by
  have e1 : readImg fs1 FIG1 = readImg fs2 FIG1 := h FIG1 (by simp [figPaths])
  have e2 : readImg fs1 FIG2 = readImg fs2 FIG2 := h FIG2 (by simp [figPaths])
  have e3 : readImg fs1 FIG3 = readImg fs2 FIG3 := h FIG3 (by simp [figPaths])
  have e4 : readImg fs1 FIG4 = readImg fs2 FIG4 := h FIG4 (by simp [figPaths])
  have e5 : readImg fs1 FIG5 = readImg fs2 FIG5 := h FIG5 (by simp [figPaths])
  have hrun : build_run m fs1 = build_run m fs2 := by
    simp only [build_run, ReportPDF.add_figure, e1, e2, e3, e4, e5]
  rcases hr : build_run m fs2 with e | s
  · rw [build_report, build_report, hrun, hr]
    exact ⟨rfl, rfl, fun hok => Except.noConfusion hok⟩
  rcases writeOk with _ | _
  · rw [build_report, build_report, hrun, hr]
    exact ⟨rfl, rfl, fun hok => Except.noConfusion hok⟩
  rcases copyOk with _ | _
  · rw [build_report, build_report, hrun, hr]
    simp [copy2]
  rw [build_report, build_report, hrun, hr]
  refine ⟨rfl, rfl, fun _ => ⟨?_, ?_⟩⟩ <;>
    simp [copy2, fsSet, stripTs, finalize, OUTPUT_PRIMARY, OUTPUT_COPY,
      PROJECT_DIR]

/-- Witness for C8: the agreement hypothesis discharged between two
identical concrete filesystems at two different clocks. -/
theorem build_deterministic_mod_timestamp_witness :
    (build_report mTest fsTest 1 true true).status =
      (build_report mTest fsTest 2 true true).status ∧
    (build_report mTest fsTest 1 true true).console =
      (build_report mTest fsTest 2 true true).console ∧
    ((build_report mTest fsTest 1 true true).status = .ok () →
      Option.map stripTs
          ((build_report mTest fsTest 1 true true).fs OUTPUT_PRIMARY) =
        Option.map stripTs
          ((build_report mTest fsTest 2 true true).fs OUTPUT_PRIMARY) ∧
      Option.map stripTs
          ((build_report mTest fsTest 1 true true).fs OUTPUT_COPY) =
        Option.map stripTs
          ((build_report mTest fsTest 2 true true).fs OUTPUT_COPY)) :=
  build_deterministic_mod_timestamp mTest fsTest fsTest 1 2 true true
    (fun _ _ => rfl)

/-! Per-segment trace facts: each builder segment contributes its section
heading numbers (in reverse order, matching the reverse-order trace), only
allowed fonts, at most one title drawing, and leaves the page configuration
untouched. -/

theorem configure_trace (s : PdfState) :
    (configure s).events = s.events ∧
    cfgOf (configure s) =
      ⟨s.pageW, s.pageH, MARGIN, MARGIN, MARGIN, true, 20, true⟩ := by
  refine ⟨rfl, ?_⟩
  simp [configure, PdfState.alias_nb_pages, PdfState.set_auto_page_break,
    PdfState.set_margins, cfgOf]

set_option maxHeartbeats 1000000 in
theorem emitTitlePage_trace (m : Metrics) (s : PdfState) :
    (emitTitlePage m s).events.filterMap headingNumOf =
      s.events.filterMap headingNumOf ∧
    fontsOK (emitTitlePage m s).events = fontsOK s.events ∧
    titleFonts (emitTitlePage m s).events = ⟨"Helvetica", "B", 24⟩ :: titleFonts s.events ∧
    cfgOf (emitTitlePage m s) = cfgOf s := by
  refine ⟨?_, ?_, ?_, ?_⟩ <;>
    simp +decide [emitTitlePage, ReportPDF.section_heading, ReportPDF.subsection,
      ReportPDF.body_text, ReportPDF.bold_text, ReportPDF.bullet,
      PdfState.cell, PdfState.multi_cell, PdfState.set_font,
      PdfState.set_text_color, PdfState.set_draw_color, PdfState.ln,
      PdfState.line, PdfState.add_page, headingNumOf, fontsOK, evFontOK,
      fontOK, titleFonts, titleFontOf, cfgOf, leadNat, natStr, natChars,
      natCharsAux, digitChar, leadNatAux, FONT_BODY, FONT_BOLD, FONT_H2,
      FONT_H3, FONT_SMALL, FONT_ITALIC, REFERENCES]

set_option maxHeartbeats 1000000 in
theorem emitSection1_trace (m : Metrics) (s : PdfState) :
    (emitSection1 m s).events.filterMap headingNumOf =
      1 :: s.events.filterMap headingNumOf ∧
    fontsOK (emitSection1 m s).events = fontsOK s.events ∧
    titleFonts (emitSection1 m s).events = titleFonts s.events ∧
    cfgOf (emitSection1 m s) = cfgOf s := by
  refine ⟨?_, ?_, ?_, ?_⟩ <;>
    simp +decide [emitSection1, ReportPDF.section_heading, ReportPDF.subsection,
      ReportPDF.body_text, ReportPDF.bold_text, ReportPDF.bullet,
      PdfState.cell, PdfState.multi_cell, PdfState.set_font,
      PdfState.set_text_color, PdfState.set_draw_color, PdfState.ln,
      PdfState.line, PdfState.add_page, headingNumOf, fontsOK, evFontOK,
      fontOK, titleFonts, titleFontOf, cfgOf, leadNat, natStr, natChars,
      natCharsAux, digitChar, leadNatAux, FONT_BODY, FONT_BOLD, FONT_H2,
      FONT_H3, FONT_SMALL, FONT_ITALIC, REFERENCES]

set_option maxHeartbeats 1000000 in
theorem emitSection2_trace (m : Metrics) (s : PdfState) :
    (emitSection2 m s).events.filterMap headingNumOf =
      2 :: s.events.filterMap headingNumOf ∧
    fontsOK (emitSection2 m s).events = fontsOK s.events ∧
    titleFonts (emitSection2 m s).events = titleFonts s.events ∧
    cfgOf (emitSection2 m s) = cfgOf s := by
  refine ⟨?_, ?_, ?_, ?_⟩ <;>
    simp +decide [emitSection2, ReportPDF.section_heading, ReportPDF.subsection,
      ReportPDF.body_text, ReportPDF.bold_text, ReportPDF.bullet,
      PdfState.cell, PdfState.multi_cell, PdfState.set_font,
      PdfState.set_text_color, PdfState.set_draw_color, PdfState.ln,
      PdfState.line, PdfState.add_page, headingNumOf, fontsOK, evFontOK,
      fontOK, titleFonts, titleFontOf, cfgOf, leadNat, natStr, natChars,
      natCharsAux, digitChar, leadNatAux, FONT_BODY, FONT_BOLD, FONT_H2,
      FONT_H3, FONT_SMALL, FONT_ITALIC, REFERENCES]

set_option maxHeartbeats 1000000 in
theorem emitSection3_trace (m : Metrics) (s : PdfState) :
    (emitSection3 m s).events.filterMap headingNumOf =
      3 :: s.events.filterMap headingNumOf ∧
    fontsOK (emitSection3 m s).events = fontsOK s.events ∧
    titleFonts (emitSection3 m s).events = titleFonts s.events ∧
    cfgOf (emitSection3 m s) = cfgOf s := by
  refine ⟨?_, ?_, ?_, ?_⟩ <;>
    simp +decide [emitSection3, ReportPDF.section_heading, ReportPDF.subsection,
      ReportPDF.body_text, ReportPDF.bold_text, ReportPDF.bullet,
      PdfState.cell, PdfState.multi_cell, PdfState.set_font,
      PdfState.set_text_color, PdfState.set_draw_color, PdfState.ln,
      PdfState.line, PdfState.add_page, headingNumOf, fontsOK, evFontOK,
      fontOK, titleFonts, titleFontOf, cfgOf, leadNat, natStr, natChars,
      natCharsAux, digitChar, leadNatAux, FONT_BODY, FONT_BOLD, FONT_H2,
      FONT_H3, FONT_SMALL, FONT_ITALIC, REFERENCES]

set_option maxHeartbeats 1000000 in
theorem emitSection4_trace (m : Metrics) (s : PdfState) :
    (emitSection4 m s).events.filterMap headingNumOf =
      4 :: s.events.filterMap headingNumOf ∧
    fontsOK (emitSection4 m s).events = fontsOK s.events ∧
    titleFonts (emitSection4 m s).events = titleFonts s.events ∧
    cfgOf (emitSection4 m s) = cfgOf s := by
  refine ⟨?_, ?_, ?_, ?_⟩ <;>
    simp +decide [emitSection4, ReportPDF.section_heading, ReportPDF.subsection,
      ReportPDF.body_text, ReportPDF.bold_text, ReportPDF.bullet,
      PdfState.cell, PdfState.multi_cell, PdfState.set_font,
      PdfState.set_text_color, PdfState.set_draw_color, PdfState.ln,
      PdfState.line, PdfState.add_page, headingNumOf, fontsOK, evFontOK,
      fontOK, titleFonts, titleFontOf, cfgOf, leadNat, natStr, natChars,
      natCharsAux, digitChar, leadNatAux, FONT_BODY, FONT_BOLD, FONT_H2,
      FONT_H3, FONT_SMALL, FONT_ITALIC, REFERENCES]

set_option maxHeartbeats 1000000 in
theorem emitSection5a_trace (m : Metrics) (s : PdfState) :
    (emitSection5a m s).events.filterMap headingNumOf =
      5 :: s.events.filterMap headingNumOf ∧
    fontsOK (emitSection5a m s).events = fontsOK s.events ∧
    titleFonts (emitSection5a m s).events = titleFonts s.events ∧
    cfgOf (emitSection5a m s) = cfgOf s := by
  refine ⟨?_, ?_, ?_, ?_⟩ <;>
    simp +decide [emitSection5a, ReportPDF.section_heading, ReportPDF.subsection,
      ReportPDF.body_text, ReportPDF.bold_text, ReportPDF.bullet,
      PdfState.cell, PdfState.multi_cell, PdfState.set_font,
      PdfState.set_text_color, PdfState.set_draw_color, PdfState.ln,
      PdfState.line, PdfState.add_page, headingNumOf, fontsOK, evFontOK,
      fontOK, titleFonts, titleFontOf, cfgOf, leadNat, natStr, natChars,
      natCharsAux, digitChar, leadNatAux, FONT_BODY, FONT_BOLD, FONT_H2,
      FONT_H3, FONT_SMALL, FONT_ITALIC, REFERENCES]

set_option maxHeartbeats 1000000 in
theorem emitSection5b_trace (m : Metrics) (s : PdfState) :
    (emitSection5b m s).events.filterMap headingNumOf =
      s.events.filterMap headingNumOf ∧
    fontsOK (emitSection5b m s).events = fontsOK s.events ∧
    titleFonts (emitSection5b m s).events = titleFonts s.events ∧
    cfgOf (emitSection5b m s) = cfgOf s := by
  refine ⟨?_, ?_, ?_, ?_⟩ <;>
    simp +decide [emitSection5b, ReportPDF.section_heading, ReportPDF.subsection,
      ReportPDF.body_text, ReportPDF.bold_text, ReportPDF.bullet,
      PdfState.cell, PdfState.multi_cell, PdfState.set_font,
      PdfState.set_text_color, PdfState.set_draw_color, PdfState.ln,
      PdfState.line, PdfState.add_page, headingNumOf, fontsOK, evFontOK,
      fontOK, titleFonts, titleFontOf, cfgOf, leadNat, natStr, natChars,
      natCharsAux, digitChar, leadNatAux, FONT_BODY, FONT_BOLD, FONT_H2,
      FONT_H3, FONT_SMALL, FONT_ITALIC, REFERENCES]

set_option maxHeartbeats 1000000 in
theorem emitSection5c_trace (m : Metrics) (s : PdfState) :
    (emitSection5c m s).events.filterMap headingNumOf =
      s.events.filterMap headingNumOf ∧
    fontsOK (emitSection5c m s).events = fontsOK s.events ∧
    titleFonts (emitSection5c m s).events = titleFonts s.events ∧
    cfgOf (emitSection5c m s) = cfgOf s := by
  refine ⟨?_, ?_, ?_, ?_⟩ <;>
    simp +decide [emitSection5c, ReportPDF.section_heading, ReportPDF.subsection,
      ReportPDF.body_text, ReportPDF.bold_text, ReportPDF.bullet,
      PdfState.cell, PdfState.multi_cell, PdfState.set_font,
      PdfState.set_text_color, PdfState.set_draw_color, PdfState.ln,
      PdfState.line, PdfState.add_page, headingNumOf, fontsOK, evFontOK,
      fontOK, titleFonts, titleFontOf, cfgOf, leadNat, natStr, natChars,
      natCharsAux, digitChar, leadNatAux, FONT_BODY, FONT_BOLD, FONT_H2,
      FONT_H3, FONT_SMALL, FONT_ITALIC, REFERENCES]

set_option maxHeartbeats 1000000 in
theorem emitSection5d_trace (m : Metrics) (s : PdfState) :
    (emitSection5d m s).events.filterMap headingNumOf =
      s.events.filterMap headingNumOf ∧
    fontsOK (emitSection5d m s).events = fontsOK s.events ∧
    titleFonts (emitSection5d m s).events = titleFonts s.events ∧
    cfgOf (emitSection5d m s) = cfgOf s := by
  refine ⟨?_, ?_, ?_, ?_⟩ <;>
    simp +decide [emitSection5d, ReportPDF.section_heading, ReportPDF.subsection,
      ReportPDF.body_text, ReportPDF.bold_text, ReportPDF.bullet,
      PdfState.cell, PdfState.multi_cell, PdfState.set_font,
      PdfState.set_text_color, PdfState.set_draw_color, PdfState.ln,
      PdfState.line, PdfState.add_page, headingNumOf, fontsOK, evFontOK,
      fontOK, titleFonts, titleFontOf, cfgOf, leadNat, natStr, natChars,
      natCharsAux, digitChar, leadNatAux, FONT_BODY, FONT_BOLD, FONT_H2,
      FONT_H3, FONT_SMALL, FONT_ITALIC, REFERENCES]

set_option maxHeartbeats 1000000 in
theorem emitSection6_trace (m : Metrics) (s : PdfState) :
    (emitSection6 m s).events.filterMap headingNumOf =
      6 :: s.events.filterMap headingNumOf ∧
    fontsOK (emitSection6 m s).events = fontsOK s.events ∧
    titleFonts (emitSection6 m s).events = titleFonts s.events ∧
    cfgOf (emitSection6 m s) = cfgOf s := by
  refine ⟨?_, ?_, ?_, ?_⟩ <;>
    simp +decide [emitSection6, ReportPDF.section_heading, ReportPDF.subsection,
      ReportPDF.body_text, ReportPDF.bold_text, ReportPDF.bullet,
      PdfState.cell, PdfState.multi_cell, PdfState.set_font,
      PdfState.set_text_color, PdfState.set_draw_color, PdfState.ln,
      PdfState.line, PdfState.add_page, headingNumOf, fontsOK, evFontOK,
      fontOK, titleFonts, titleFontOf, cfgOf, leadNat, natStr, natChars,
      natCharsAux, digitChar, leadNatAux, FONT_BODY, FONT_BOLD, FONT_H2,
      FONT_H3, FONT_SMALL, FONT_ITALIC, REFERENCES]

set_option maxHeartbeats 1000000 in
theorem emitSection7_trace (m : Metrics) (s : PdfState) :
    (emitSection7 m s).events.filterMap headingNumOf =
      7 :: s.events.filterMap headingNumOf ∧
    fontsOK (emitSection7 m s).events = fontsOK s.events ∧
    titleFonts (emitSection7 m s).events = titleFonts s.events ∧
    cfgOf (emitSection7 m s) = cfgOf s := by
  refine ⟨?_, ?_, ?_, ?_⟩ <;>
    simp +decide [emitSection7, ReportPDF.section_heading, ReportPDF.subsection,
      ReportPDF.body_text, ReportPDF.bold_text, ReportPDF.bullet,
      PdfState.cell, PdfState.multi_cell, PdfState.set_font,
      PdfState.set_text_color, PdfState.set_draw_color, PdfState.ln,
      PdfState.line, PdfState.add_page, headingNumOf, fontsOK, evFontOK,
      fontOK, titleFonts, titleFontOf, cfgOf, leadNat, natStr, natChars,
      natCharsAux, digitChar, leadNatAux, FONT_BODY, FONT_BOLD, FONT_H2,
      FONT_H3, FONT_SMALL, FONT_ITALIC, REFERENCES]

set_option maxHeartbeats 1000000 in
theorem emitSection8_trace (m : Metrics) (s : PdfState) :
    (emitSection8 m s).events.filterMap headingNumOf =
      8 :: s.events.filterMap headingNumOf ∧
    fontsOK (emitSection8 m s).events = fontsOK s.events ∧
    titleFonts (emitSection8 m s).events = titleFonts s.events ∧
    cfgOf (emitSection8 m s) = cfgOf s := by
  refine ⟨?_, ?_, ?_, ?_⟩ <;>
    simp +decide [emitSection8, ReportPDF.section_heading, ReportPDF.subsection,
      ReportPDF.body_text, ReportPDF.bold_text, ReportPDF.bullet,
      PdfState.cell, PdfState.multi_cell, PdfState.set_font,
      PdfState.set_text_color, PdfState.set_draw_color, PdfState.ln,
      PdfState.line, PdfState.add_page, headingNumOf, fontsOK, evFontOK,
      fontOK, titleFonts, titleFontOf, cfgOf, leadNat, natStr, natChars,
      natCharsAux, digitChar, leadNatAux, FONT_BODY, FONT_BOLD, FONT_H2,
      FONT_H3, FONT_SMALL, FONT_ITALIC, REFERENCES]

set_option maxHeartbeats 1000000 in
theorem afState_trace (m : Metrics) (s : PdfState) (path caption : String)
    (data : List Nat) (width : ℚ) (hcap : caption ≠ TITLE) :
    (ReportPDF.afState m s path data caption width).events.filterMap
        headingNumOf = s.events.filterMap headingNumOf ∧
    fontsOK (ReportPDF.afState m s path data caption width).events =
      fontsOK s.events ∧
    titleFonts (ReportPDF.afState m s path data caption width).events =
      titleFonts s.events ∧
    cfgOf (ReportPDF.afState m s path data caption width) = cfgOf s := by
  refine ⟨?_, ?_, ?_, ?_⟩ <;>
    by_cases hc : s.y + (width * (0.6 : ℚ) + 15) > 270 <;>
      simp +decide [ReportPDF.afState, PdfState.image, PdfState.ln,
        PdfState.set_font, PdfState.set_text_color, PdfState.multi_cell,
        PdfState.add_page, headingNumOf, fontsOK, evFontOK, fontOK,
        titleFonts, titleFontOf, cfgOf, hc, hcap, FONT_ITALIC]

/-! Composition of the per-segment facts over the whole successful run. -/

theorem okRun_headings (m : Metrics) (b1 b2 b3 b4 b5 : List Nat) :
    (okRun m b1 b2 b3 b4 b5).events.filterMap headingNumOf =
      [8, 7, 6, 5, 4, 3, 2, 1] := by
  rw [okRun, (emitSection8_trace _ _).1, (emitSection7_trace _ _).1,
    (emitSection6_trace _ _).1, (emitSection5d_trace _ _).1,
    (afState_trace _ _ _ _ _ _ (by decide)).1,
    (emitSection5c_trace _ _).1,
    (afState_trace _ _ _ _ _ _ (by decide)).1,
    (afState_trace _ _ _ _ _ _ (by decide)).1,
    (emitSection5b_trace _ _).1,
    (afState_trace _ _ _ _ _ _ (by decide)).1,
    (afState_trace _ _ _ _ _ _ (by decide)).1,
    (emitSection5a_trace _ _).1, (emitSection4_trace _ _).1,
    (emitSection3_trace _ _).1, (emitSection2_trace _ _).1,
    (emitSection1_trace _ _).1, (emitTitlePage_trace _ _).1,
    (configure_trace _).1]
  rfl

theorem okRun_fonts (m : Metrics) (b1 b2 b3 b4 b5 : List Nat) :
    fontsOK (okRun m b1 b2 b3 b4 b5).events = true := by
  rw [okRun, (emitSection8_trace _ _).2.1, (emitSection7_trace _ _).2.1,
    (emitSection6_trace _ _).2.1, (emitSection5d_trace _ _).2.1,
    (afState_trace _ _ _ _ _ _ (by decide)).2.1,
    (emitSection5c_trace _ _).2.1,
    (afState_trace _ _ _ _ _ _ (by decide)).2.1,
    (afState_trace _ _ _ _ _ _ (by decide)).2.1,
    (emitSection5b_trace _ _).2.1,
    (afState_trace _ _ _ _ _ _ (by decide)).2.1,
    (afState_trace _ _ _ _ _ _ (by decide)).2.1,
    (emitSection5a_trace _ _).2.1, (emitSection4_trace _ _).2.1,
    (emitSection3_trace _ _).2.1, (emitSection2_trace _ _).2.1,
    (emitSection1_trace _ _).2.1, (emitTitlePage_trace _ _).2.1,
    (configure_trace _).1]
  rfl

theorem okRun_title (m : Metrics) (b1 b2 b3 b4 b5 : List Nat) :
    titleFonts (okRun m b1 b2 b3 b4 b5).events = [⟨"Helvetica", "B", 24⟩] := by
  rw [okRun, (emitSection8_trace _ _).2.2.1, (emitSection7_trace _ _).2.2.1,
    (emitSection6_trace _ _).2.2.1, (emitSection5d_trace _ _).2.2.1,
    (afState_trace _ _ _ _ _ _ (by decide)).2.2.1,
    (emitSection5c_trace _ _).2.2.1,
    (afState_trace _ _ _ _ _ _ (by decide)).2.2.1,
    (afState_trace _ _ _ _ _ _ (by decide)).2.2.1,
    (emitSection5b_trace _ _).2.2.1,
    (afState_trace _ _ _ _ _ _ (by decide)).2.2.1,
    (afState_trace _ _ _ _ _ _ (by decide)).2.2.1,
    (emitSection5a_trace _ _).2.2.1, (emitSection4_trace _ _).2.2.1,
    (emitSection3_trace _ _).2.2.1, (emitSection2_trace _ _).2.2.1,
    (emitSection1_trace _ _).2.2.1, (emitTitlePage_trace _ _).2.2.1,
    (configure_trace _).1]
  rfl

theorem okRun_cfg (m : Metrics) (b1 b2 b3 b4 b5 : List Nat) :
    cfgOf (okRun m b1 b2 b3 b4 b5) =
      ⟨210, 297, 20, 20, 20, true, 20, true⟩ := by
  rw [okRun, (emitSection8_trace _ _).2.2.2, (emitSection7_trace _ _).2.2.2,
    (emitSection6_trace _ _).2.2.2, (emitSection5d_trace _ _).2.2.2,
    (afState_trace _ _ _ _ _ _ (by decide)).2.2.2,
    (emitSection5c_trace _ _).2.2.2,
    (afState_trace _ _ _ _ _ _ (by decide)).2.2.2,
    (afState_trace _ _ _ _ _ _ (by decide)).2.2.2,
    (emitSection5b_trace _ _).2.2.2,
    (afState_trace _ _ _ _ _ _ (by decide)).2.2.2,
    (afState_trace _ _ _ _ _ _ (by decide)).2.2.2,
    (emitSection5a_trace _ _).2.2.2, (emitSection4_trace _ _).2.2.2,
    (emitSection3_trace _ _).2.2.2, (emitSection2_trace _ _).2.2.2,
    (emitSection1_trace _ _).2.2.2, (emitTitlePage_trace _ _).2.2.2,
    (configure_trace _).2]
  rfl

/-- C6: in the content-block sequence of any successful run, the section
heading numbers, in document order, are exactly 1 through 8: each appears
exactly once and they ascend strictly. -/
theorem section_headings_in_order (m : Metrics) (fs : FS) (s : PdfState)
    (h : build_run m fs = .ok s) :
    headingNums s.events = [1, 2, 3, 4, 5, 6, 7, 8] := by
  rcases run_ok_elim m fs s h with ⟨b1, b2, b3, b4, b5, _, _, _, _, _, rfl⟩
  rw [headingNums, okRun_headings]
  rfl

/-- Witness for C6: a concrete successful run (hypothesis discharged via
`build_run_ok` on `fsTest`). -/
theorem section_headings_in_order_witness :
    headingNums (okRun mTest [7] [7] [7] [7] [7]).events =
      [1, 2, 3, 4, 5, 6, 7, 8] :=
  section_headings_in_order mTest fsTest (okRun mTest [7] [7] [7] [7] [7])
    (build_run_ok mTest fsTest [7] [7] [7] [7] [7] rfl rfl rfl rfl rfl)

/-- C7: any successful run is laid out on A4 (210 x 297 mm) with 20 mm
margins on all sides (bottom enforced by the 20 mm auto-page-break margin);
every text event of its trace is drawn in a Helvetica-family font at one of
the fixed sizes 24/14/12/11/10/9 pt; the title is drawn exactly once, in
bold 24 pt; and the named role fonts have exactly the sizes the spec
states: 14 pt section headings (`FONT_H2`, used only by `section_heading`),
12 pt subsections, 11 pt body and bold text, 10 pt italic captions, 9 pt
header and footer text. -/
theorem page_geometry_and_fonts (m : Metrics) (fs : FS) (s : PdfState)
    (h : build_run m fs = .ok s) :
    cfgOf s = ⟨210, 297, 20, 20, 20, true, 20, true⟩ ∧
    fontsOK s.events = true ∧
    titleFonts s.events = [⟨"Helvetica", "B", 24⟩] ∧
    FONT_H2 = ⟨"Helvetica", "B", 14⟩ ∧ FONT_H3 = ⟨"Helvetica", "B", 12⟩ ∧
    FONT_BODY = ⟨"Helvetica", "", 11⟩ ∧ FONT_BOLD = ⟨"Helvetica", "B", 11⟩ ∧
    FONT_ITALIC = ⟨"Helvetica", "I", 10⟩ ∧
    FONT_SMALL = ⟨"Helvetica", "", 9⟩ := by
  rcases run_ok_elim m fs s h with ⟨b1, b2, b3, b4, b5, _, _, _, _, _, rfl⟩
  exact ⟨okRun_cfg m b1 b2 b3 b4 b5, okRun_fonts m b1 b2 b3 b4 b5,
    okRun_title m b1 b2 b3 b4 b5, rfl, rfl, rfl, rfl, rfl, rfl⟩

/-- Witness for C7: the same concrete successful run as for C6's shape,
with the success hypothesis discharged via `build_run_ok`. -/
theorem page_geometry_and_fonts_witness :
    cfgOf (okRun mTest [7] [7] [7] [7] [7]) =
      ⟨210, 297, 20, 20, 20, true, 20, true⟩ ∧
    fontsOK (okRun mTest [7] [7] [7] [7] [7]).events = true :=
  ⟨(page_geometry_and_fonts mTest fsTest (okRun mTest [7] [7] [7] [7] [7])
      (build_run_ok mTest fsTest [7] [7] [7] [7] [7] rfl rfl rfl rfl rfl)).1,
    (page_geometry_and_fonts mTest fsTest (okRun mTest [7] [7] [7] [7] [7])
      (build_run_ok mTest fsTest [7] [7] [7] [7] [7] rfl rfl rfl rfl rfl)).2.1⟩
